import Mathlib

/-!
Verification of the ozone-dynamics simulator (`src/app.py`).

The development shallowly embeds the core computational functions of the
application over the real numbers:

* `estimate_k`       — the first-order decay-rate estimator (`estimate_k`, app.py:20-26)
* `simulateSample`   — the per-sample piecewise concentration model
                       (the loop body of `simulate_ozone`, app.py:28-41)
* `simulate_ozone`   — the full time-series simulator (app.py:28-41)
* `linspace`         — the time axis builder (`np.linspace`, called at app.py:150)
* `remove_scn`       — the scenario-removal operation (`remove_scenario`, app.py:55-59)
* `half_life_cell`   — the half-life column of a summary row (app.py:152)
* `generate_pdf_report` / `generate_html_report`
                     — the data flow of the two report encoders (app.py:80-123)

Python floats are modelled as real numbers; `math.exp` as `Real.exp`;
`math.pow 2 x` as real exponentiation `(2 : ℝ) ^ (x : ℝ)`.
-/

namespace Ozone

/-- Embedding of `estimate_k(temp_c, ph, wq_factor)` (app.py:20-26):
`base_k = 0.005`; `temp_factor = max(0.1, 2 ** ((temp_c - 20) / 10))`;
`ph_factor = (1.0 + max(0, (ph - 7) * 0.25)) if ph > 7 else (1.0 - (7 - ph) * 0.1)`,
then floored at `0.1`; `wq_factor` floored at `0.1`; result is the product. -/
noncomputable def estimate_k (temp_c ph wq_factor : ℝ) : ℝ :=
  0.005 * max 0.1 ((2 : ℝ) ^ ((temp_c - 20) / 10))
    * max 0.1 (if ph > 7 then 1.0 + max 0 ((ph - 7) * 0.25) else 1.0 - (7 - ph) * 0.1)
    * max 0.1 wq_factor

/-- Embedding of `R = (ozone_gph * 1000) / (volume_l * 60)` (app.py:29). -/
noncomputable def injectionR (ozone_gph volume_l : ℝ) : ℝ :=
  ozone_gph * 1000 / (volume_l * 60)

/-- Embedding of `t_fill_end = fill_hr * 60` (app.py:30). -/
noncomputable def t_fill_end (fill_hr : ℝ) : ℝ := fill_hr * 60

/-- Embedding of
`c_peak = (R / k) * (1 - math.exp(-k * t_fill_end)) if k > 0 else R * t_fill_end`
(app.py:31). -/
noncomputable def c_peak (ozone_gph volume_l k fill_hr : ℝ) : ℝ :=
  if k > 0 then
    injectionR ozone_gph volume_l / k * (1 - Real.exp (-k * t_fill_end fill_hr))
  else injectionR ozone_gph volume_l * t_fill_end fill_hr

/-- Embedding of the loop body of `simulate_ozone` (app.py:33-40): the
concentration produced for one requested time `t_min`, floored at `0` by
`max(0, current_conc)`. -/
noncomputable def simulateSample (ozone_gph volume_l k fill_hr t_min : ℝ) : ℝ :=
  max 0
    (if t_min ≤ t_fill_end fill_hr then
      if k > 0 then
        injectionR ozone_gph volume_l / k * (1 - Real.exp (-k * t_min))
      else injectionR ozone_gph volume_l * t_min
    else
      if k > 0 then
        c_peak ozone_gph volume_l k fill_hr * Real.exp (-k * (t_min - t_fill_end fill_hr))
      else c_peak ozone_gph volume_l k fill_hr)

/-- Embedding of `simulate_ozone(t_array, ozone_gph, volume_l, k, fill_hr)`
(app.py:28-41): maps the per-sample rule over the requested time axis. -/
noncomputable def simulate_ozone (t_array : List ℝ) (ozone_gph volume_l k fill_hr : ℝ) :
    List ℝ :=
  t_array.map (simulateSample ozone_gph volume_l k fill_hr)

/-- Embedding of `np.linspace(start, stop, num)` with the default
`endpoint=True` (numpy semantics, as called at app.py:150): `num` evenly
spaced samples `start + (stop - start) * i / (num - 1)` for `i < num`. -/
noncomputable def linspace (start stop : ℝ) (num : ℕ) : List ℝ :=
  (List.range num).map fun i : ℕ => start + (stop - start) * (i : ℝ) / ((num : ℝ) - 1)

/-- Embedding of `remove_scenario(index)` (app.py:55-59).  The session state
`st.session_state.scenarios` is passed explicitly as a list; the returned
`Bool` is `true` exactly when the rejection toast
`"Cannot remove the last scenario."` is shown.  With more than one element
the list `pop(index)` removes the element at `index`, which is `eraseIdx`. -/
def remove_scn {α : Type} (scns : List α) (index : ℕ) : List α × Bool :=
  if 1 < scns.length then (scns.eraseIdx index, false) else (scns, true)

/-- Embedding of Python `round(x, 2)` over the reals: rounding to two decimal
places (app.py:152).  Tie-breaking conventions differ between Python floats
and `round` on ℝ only at exact half-cent ties, which do not arise here. -/
noncomputable def round2 (x : ℝ) : ℝ := (round (x * 100) : ℤ) / 100

/-- Value of the half-life column of a summary row: either a number of
minutes or the literal `"inf"` sentinel (app.py:152). -/
inductive HalfLifeCell where
  | num : ℝ → HalfLifeCell
  | inf : HalfLifeCell

/-- Embedding of `round(math.log(2) / k, 2) if k > 0 else "inf"` (app.py:152). -/
noncomputable def half_life_cell (k : ℝ) : HalfLifeCell :=
  if k > 0 then .num (round2 (Real.log 2 / k)) else .inf

/-- Model of a PNG produced by `fig.savefig(..., format="png", ...)`.  The
figure is created with `figsize=(10, 6)` inches (app.py:166), so a render at
`dpi` dots per inch has pixel dimensions `10 * dpi` by `6 * dpi`; renders of
the same figure at different `dpi` therefore have different pixel dimensions
and are distinct image artifacts. -/
structure PngImage where
  figId : ℕ
  widthPx : ℕ
  heightPx : ℕ
deriving DecidableEq

/-- Model of one `fig.savefig` call rendering figure `figId` at `dpi`. -/
def savefig (figId : ℕ) (dpi : ℕ) : PngImage :=
  { figId := figId, widthPx := 10 * dpi, heightPx := 6 * dpi }

/-- Data content of the structured-document (PDF) export artifact. -/
structure PdfReport (Row : Type) where
  image : PngImage
  table : List Row
deriving DecidableEq

/-- Data content of the hypertext (HTML) export artifact. -/
structure HtmlReport (Row : Type) where
  image : PngImage
  table : List Row
deriving DecidableEq

/-- Embedding of the data flow of `generate_pdf_report(fig, table_df)`
(app.py:80-111): it renders the received figure itself via
`fig.savefig(img_buffer, format="png", dpi=300, bbox_inches='tight')`
(app.py:85) and lays out the received summary rows. -/
def generate_pdf_report {Row : Type} (figId : ℕ) (table : List Row) : PdfReport Row :=
  { image := savefig figId 300, table := table }

/-- Embedding of the data flow of `generate_html_report(fig, table_df)`
(app.py:113-123): it renders the received figure itself via
`fig.savefig(img_buffer, format="png", bbox_inches='tight')` (app.py:115),
which uses matplotlib's default `savefig.dpi` of 100, and embeds the
received summary rows. -/
def generate_html_report {Row : Type} (figId : ℕ) (table : List Row) : HtmlReport Row :=
  { image := savefig figId 100, table := table }

/-- Closed form of the simulator's per-sample rule specialised to `k > 0`:
both phases use the exponential formulas and the `k = 0` fallbacks are
absent.  Used to express that the `k = 0` branches are unreachable when `k`
comes from `estimate_k`. -/
noncomputable def simulateSamplePos (ozone_gph volume_l k fill_hr t_min : ℝ) : ℝ :=
  max 0
    (if t_min ≤ t_fill_end fill_hr then
      injectionR ozone_gph volume_l / k * (1 - Real.exp (-k * t_min))
    else
      injectionR ozone_gph volume_l / k * (1 - Real.exp (-k * t_fill_end fill_hr))
        * Real.exp (-k * (t_min - t_fill_end fill_hr)))

/-- Temperature factor computed by `estimate_k` for the spec's end-to-end
example input `temp_c = 25` (app.py:22). -/
noncomputable def temp_factor_ex : ℝ := max 0.1 ((2 : ℝ) ^ (((25 : ℝ) - 20) / 10))

/-- The pH factor computed by `estimate_k` for the spec's end-to-end example
input `ph = 7` (app.py:23-24). -/
noncomputable def ph_factor_ex : ℝ :=
  max 0.1 (if (7 : ℝ) > 7 then 1.0 + max 0 (((7 : ℝ) - 7) * 0.25)
           else 1.0 - (7 - (7 : ℝ)) * 0.1)

/-- Statement of the spec's end-to-end example as claimed (C2), for the
input ozone rate 5 g/h, fill 1 hr, volume 200 L, 25 °C, pH 7,
water-quality factor 1: `temp_factor = 2^0.5 ≈ 1.414`, `ph_factor = 1`,
`k ≈ 0.00707`, `R ≈ 0.4167`, concentration at the 60-minute fill end
`≈ 16.9`, half-life `≈ 98.1`.  Each `≈ v` is read as agreement with `v`
within the tolerance shown. -/
noncomputable def spec_example_claim : Prop :=
  temp_factor_ex = Real.sqrt 2 ∧ |temp_factor_ex - 1.414| ≤ 0.001
  ∧ ph_factor_ex = 1
  ∧ |estimate_k 25 7 1 - 0.00707| ≤ 0.00001
  ∧ |injectionR 5 200 - 0.4167| ≤ 0.0001
  ∧ |simulateSample 5 200 (estimate_k 25 7 1) 1 60 - 16.9| ≤ 0.5
  ∧ |Real.log 2 / estimate_k 25 7 1 - 98.1| ≤ 0.5

/-! ### Helper lemmas -/

lemma injectionR_nonneg {ozone_gph volume_l : ℝ} (ho : 0 ≤ ozone_gph) (hv : 0 < volume_l) :
    0 ≤ injectionR ozone_gph volume_l := by
  unfold injectionR
  positivity

lemma injectionR_pos {ozone_gph volume_l : ℝ} (ho : 0 < ozone_gph) (hv : 0 < volume_l) :
    0 < injectionR ozone_gph volume_l := by
  unfold injectionR
  positivity

lemma t_fill_end_nonneg {fill_hr : ℝ} (hf : 0 ≤ fill_hr) : 0 ≤ t_fill_end fill_hr := by
  unfold t_fill_end; linarith

lemma one_sub_exp_neg_nonneg {a : ℝ} (ha : 0 ≤ a) : 0 ≤ 1 - Real.exp (-a) := by
  have h : Real.exp (-a) ≤ 1 := Real.exp_le_one_iff.mpr (by linarith)
  linarith

lemma c_peak_nonneg {ozone_gph volume_l k fill_hr : ℝ} (ho : 0 ≤ ozone_gph)
    (hv : 0 < volume_l) (hk : 0 ≤ k) (hf : 0 ≤ fill_hr) :
    0 ≤ c_peak ozone_gph volume_l k fill_hr := by
  have hR := injectionR_nonneg ho hv
  have htf := t_fill_end_nonneg hf
  unfold c_peak
  split
  · next hkpos =>
      have h1 : 0 ≤ 1 - Real.exp (-k * t_fill_end fill_hr) := by
        have : -k * t_fill_end fill_hr = -(k * t_fill_end fill_hr) := by ring
        rw [this]
        exact one_sub_exp_neg_nonneg (mul_nonneg hk htf)
      have h2 : 0 ≤ injectionR ozone_gph volume_l / k := div_nonneg hR hk
      exact mul_nonneg h2 h1
  · exact mul_nonneg hR htf

lemma floored_product_lower {a b c : ℝ} (ha : 0.1 ≤ a) (hb : 0.1 ≤ b) (hc : 0.1 ≤ c) :
    0.005 * 0.1 * 0.1 * 0.1 ≤ 0.005 * a * b * c := by
  have hab : (0.1 : ℝ) * 0.1 ≤ a * b :=
    mul_le_mul ha hb (by norm_num) (by linarith)
  have habc : (0.1 : ℝ) * 0.1 * 0.1 ≤ a * b * c :=
    mul_le_mul hab hc (by norm_num) (by nlinarith)
  nlinarith [habc]

lemma estimate_k_pos (temp_c ph wq_factor : ℝ) : 0 < estimate_k temp_c ph wq_factor := by
  unfold estimate_k
  have h1 : (0.1 : ℝ) ≤ max 0.1 ((2 : ℝ) ^ ((temp_c - 20) / 10)) := le_max_left _ _
  have h2 : (0.1 : ℝ) ≤
      max 0.1 (if ph > 7 then 1.0 + max 0 ((ph - 7) * 0.25) else 1.0 - (7 - ph) * 0.1) :=
    le_max_left _ _
  have h3 : (0.1 : ℝ) ≤ max 0.1 wq_factor := le_max_left _ _
  have := floored_product_lower h1 h2 h3
  nlinarith [this]

lemma linspace_get (start stop : ℝ) (num i : ℕ) (h : i < num) :
    (linspace start stop num)[i]? = some (start + (stop - start) * i / ((num : ℝ) - 1)) := by
  unfold linspace
  rw [List.getElem?_map, List.getElem?_range h]
  rfl

lemma sqrt_two_gt : (1.414213 : ℝ) < Real.sqrt 2 :=
  Real.lt_sqrt_of_sq_lt (by norm_num)

lemma sqrt_two_lt : Real.sqrt 2 < (1.414214 : ℝ) :=
  (Real.sqrt_lt' (by norm_num)).mpr (by norm_num)

lemma sqrt_two_pos : (0 : ℝ) < Real.sqrt 2 :=
  lt_trans (by norm_num) sqrt_two_gt

/-- Degree-5 Taylor approximation of `exp (-q)` on `[0, 1]`, with the
remainder bound from `Real.exp_bound` at `n = 6`. -/
lemma exp_neg_taylor (q : ℝ) (hq0 : 0 ≤ q) (hq1 : q ≤ 1) :
    1 - q + q^2/2 - q^3/6 + q^4/24 - q^5/120 - q^6 * (7/4320) ≤ Real.exp (-q)
    ∧ Real.exp (-q) ≤ 1 - q + q^2/2 - q^3/6 + q^4/24 - q^5/120 + q^6 * (7/4320) := by
  have hx : |(-q)| ≤ 1 := by rw [abs_neg, abs_of_nonneg hq0]; exact hq1
  have h := Real.exp_bound hx (n := 6) (by norm_num)
  have hsum : ∑ m ∈ Finset.range 6, (-q) ^ m / m.factorial
      = 1 - q + q^2/2 - q^3/6 + q^4/24 - q^5/120 := by
    simp [Finset.sum_range_succ, Nat.factorial]
    ring
  rw [hsum, abs_neg, abs_of_nonneg hq0, abs_le] at h
  norm_num [Nat.factorial] at h
  constructor <;> nlinarith [h.1, h.2]

/-- Rigorous enclosure of `exp (-(0.3 * √2))`, the decay factor appearing in
the concentration at the fill end of the spec's end-to-end example. -/
lemma exp_boundary_bounds :
    (0.6542 : ℝ) ≤ Real.exp (-(0.3 * Real.sqrt 2))
    ∧ Real.exp (-(0.3 * Real.sqrt 2)) ≤ 0.6543 := by
  have hs1 := sqrt_two_gt
  have hs2 := sqrt_two_lt
  have t1 := exp_neg_taylor 0.4242642 (by norm_num) (by norm_num)
  have t2 := exp_neg_taylor 0.4242639 (by norm_num) (by norm_num)
  constructor
  · have hmono : Real.exp (-(0.4242642 : ℝ)) ≤ Real.exp (-(0.3 * Real.sqrt 2)) :=
      Real.exp_le_exp.mpr (by nlinarith)
    nlinarith [t1.1, hmono]
  · have hmono : Real.exp (-(0.3 * Real.sqrt 2)) ≤ Real.exp (-(0.4242639 : ℝ)) :=
      Real.exp_le_exp.mpr (by nlinarith)
    nlinarith [t2.2, hmono]

lemma temp_factor_ex_eq : temp_factor_ex = Real.sqrt 2 := by
  unfold temp_factor_ex
  have h1 : ((25 : ℝ) - 20) / 10 = 1 / 2 := by norm_num
  rw [h1, ← Real.sqrt_eq_rpow]
  exact max_eq_right (by linarith [sqrt_two_gt])

lemma ph_factor_ex_eq : ph_factor_ex = 1 := by
  unfold ph_factor_ex
  rw [if_neg (lt_irrefl (7 : ℝ))]
  norm_num

lemma estimate_k_example : estimate_k 25 7 1 = 0.005 * Real.sqrt 2 := by
  unfold estimate_k
  have h1 : ((25 : ℝ) - 20) / 10 = 1 / 2 := by norm_num
  rw [h1, ← Real.sqrt_eq_rpow]
  rw [max_eq_right (by linarith [sqrt_two_gt] : (0.1 : ℝ) ≤ Real.sqrt 2)]
  rw [if_neg (lt_irrefl (7 : ℝ))]
  norm_num

lemma injectionR_example : injectionR 5 200 = 5 / 12 := by
  unfold injectionR
  norm_num

lemma c60_eq : simulateSample 5 200 (estimate_k 25 7 1) 1 60
    = 250 / (3 * Real.sqrt 2) * (1 - Real.exp (-(0.3 * Real.sqrt 2))) := by
  rw [estimate_k_example]
  unfold simulateSample
  have htf : t_fill_end 1 = 60 := by unfold t_fill_end; norm_num
  rw [htf]
  have hk : (0 : ℝ) < 0.005 * Real.sqrt 2 := by
    have := sqrt_two_pos
    nlinarith
  rw [if_pos le_rfl, if_pos hk]
  have harg : -(0.005 * Real.sqrt 2) * 60 = -(0.3 * Real.sqrt 2) := by ring
  rw [harg]
  have hform : injectionR 5 200 / (0.005 * Real.sqrt 2) = 250 / (3 * Real.sqrt 2) := by
    rw [injectionR_example]
    rw [div_eq_div_iff (by positivity) (by positivity)]
    ring
  rw [hform]
  refine max_eq_right ?_
  have h1 : 0 ≤ 1 - Real.exp (-(0.3 * Real.sqrt 2)) :=
    one_sub_exp_neg_nonneg (by positivity)
  have h2 : (0 : ℝ) ≤ 250 / (3 * Real.sqrt 2) := by positivity
  exact mul_nonneg h2 h1

/-- Rigorous enclosure of the fill-end concentration of the spec's
end-to-end example: it lies in `[20.36, 20.38]`, not near `16.9`. -/
lemma c60_bounds : (20.36 : ℝ) ≤ simulateSample 5 200 (estimate_k 25 7 1) 1 60
    ∧ simulateSample 5 200 (estimate_k 25 7 1) 1 60 ≤ 20.38 := by
  rw [c60_eq]
  have hs1 := sqrt_two_gt
  have hs2 := sqrt_two_lt
  have he := exp_boundary_bounds
  have h3s : (0 : ℝ) < 3 * Real.sqrt 2 := by positivity
  have hA_lo : (250 : ℝ) / (3 * 1.414214) ≤ 250 / (3 * Real.sqrt 2) := by
    rw [le_div_iff₀ h3s]
    nlinarith
  have hA_hi : (250 : ℝ) / (3 * Real.sqrt 2) ≤ 250 / (3 * 1.414213) := by
    rw [div_le_iff₀ h3s]
    nlinarith
  have hA_pos : (0 : ℝ) < 250 / (3 * Real.sqrt 2) := by positivity
  have hB_lo : (0.3457 : ℝ) ≤ 1 - Real.exp (-(0.3 * Real.sqrt 2)) := by linarith [he.2]
  have hB_hi : 1 - Real.exp (-(0.3 * Real.sqrt 2)) ≤ 0.3458 := by linarith [he.1]
  constructor
  · calc (20.36 : ℝ) ≤ 250 / (3 * 1.414214) * 0.3457 := by norm_num
      _ ≤ 250 / (3 * Real.sqrt 2) * (1 - Real.exp (-(0.3 * Real.sqrt 2))) :=
          mul_le_mul hA_lo hB_lo (by norm_num) (le_of_lt hA_pos)
  · calc 250 / (3 * Real.sqrt 2) * (1 - Real.exp (-(0.3 * Real.sqrt 2)))
        ≤ 250 / (3 * 1.414213) * 0.3458 :=
          mul_le_mul hA_hi hB_hi (by linarith) (by norm_num)
      _ ≤ 20.38 := by norm_num

/-- Rigorous enclosure of the half-life `ln 2 / k` of the spec's end-to-end
example: it lies in `[98.02, 98.03]`. -/
lemma half_life_example_bounds :
    (98.02 : ℝ) ≤ Real.log 2 / estimate_k 25 7 1
    ∧ Real.log 2 / estimate_k 25 7 1 ≤ 98.03 := by
  rw [estimate_k_example]
  have hs1 := sqrt_two_gt
  have hs2 := sqrt_two_lt
  have hL1 := Real.log_two_gt_d9
  have hL2 := Real.log_two_lt_d9
  have hk : (0 : ℝ) < 0.005 * Real.sqrt 2 := by
    have := sqrt_two_pos
    nlinarith
  constructor
  · rw [le_div_iff₀ hk]
    nlinarith
  · rw [div_le_iff₀ hk]
    nlinarith

/-! ### Claims -/

/-- C3: for every temperature, every pH in [0, 14] and every positive
water-quality factor, `estimate_k` returns at least
`0.005 * 0.1 * 0.1 * 0.1`, the base rate times the three simultaneous
floors. -/
theorem C3_estimate_k_lower_bound (temp_c ph wq_factor : ℝ)
    (hph0 : 0 ≤ ph) (hph14 : ph ≤ 14) (hwq : 0 < wq_factor) :
    0.005 * 0.1 * 0.1 * 0.1 ≤ estimate_k temp_c ph wq_factor := by
  unfold estimate_k
  have h1 : (0.1 : ℝ) ≤ max 0.1 ((2 : ℝ) ^ ((temp_c - 20) / 10)) := le_max_left _ _
  have h2 : (0.1 : ℝ) ≤
      max 0.1 (if ph > 7 then 1.0 + max 0 ((ph - 7) * 0.25) else 1.0 - (7 - ph) * 0.1) :=
    le_max_left _ _
  have h3 : (0.1 : ℝ) ≤ max 0.1 wq_factor := le_max_left _ _
  exact floored_product_lower h1 h2 h3

/-- C3 witness: the bound instantiated at temperature 25 °C, pH 7,
water-quality factor 1. -/
theorem C3_estimate_k_lower_bound_witness :
    (0 : ℝ) ≤ 7 ∧ (7 : ℝ) ≤ 14 ∧ (0 : ℝ) < 1 ∧
      0.005 * 0.1 * 0.1 * 0.1 ≤ estimate_k 25 7 1 :=
  ⟨by norm_num, by norm_num, by norm_num,
    C3_estimate_k_lower_bound 25 7 1 (by norm_num) (by norm_num) (by norm_num)⟩

/-- C4: with temperature and pH fixed, `estimate_k` is monotonically
non-decreasing in the water-quality factor. -/
theorem C4_estimate_k_mono_wq (temp_c ph wq1 wq2 : ℝ)
    (h1 : 0 < wq1) (h2 : 0 < wq2) (h12 : wq1 ≤ wq2) :
    estimate_k temp_c ph wq1 ≤ estimate_k temp_c ph wq2 := by
  unfold estimate_k
  have hmax : max 0.1 wq1 ≤ max 0.1 wq2 := max_le_max le_rfl h12
  have ht : (0.1 : ℝ) ≤ max 0.1 ((2 : ℝ) ^ ((temp_c - 20) / 10)) := le_max_left _ _
  have hp : (0.1 : ℝ) ≤
      max 0.1 (if ph > 7 then 1.0 + max 0 ((ph - 7) * 0.25) else 1.0 - (7 - ph) * 0.1) :=
    le_max_left _ _
  have hcoef : (0 : ℝ) ≤ 0.005 * max 0.1 ((2 : ℝ) ^ ((temp_c - 20) / 10))
      * max 0.1 (if ph > 7 then 1.0 + max 0 ((ph - 7) * 0.25) else 1.0 - (7 - ph) * 0.1) := by
    nlinarith [ht, hp]
  calc 0.005 * max 0.1 ((2 : ℝ) ^ ((temp_c - 20) / 10))
        * max 0.1 (if ph > 7 then 1.0 + max 0 ((ph - 7) * 0.25) else 1.0 - (7 - ph) * 0.1)
        * max 0.1 wq1
      ≤ 0.005 * max 0.1 ((2 : ℝ) ^ ((temp_c - 20) / 10))
        * max 0.1 (if ph > 7 then 1.0 + max 0 ((ph - 7) * 0.25) else 1.0 - (7 - ph) * 0.1)
        * max 0.1 wq2 := mul_le_mul_of_nonneg_left hmax hcoef

/-- C4 witness: monotonicity instantiated at temperature 25 °C, pH 7, and
water-quality factors 1 ≤ 2. -/
theorem C4_estimate_k_mono_wq_witness :
    (0 : ℝ) < 1 ∧ (0 : ℝ) < 2 ∧ (1 : ℝ) ≤ 2 ∧ estimate_k 25 7 1 ≤ estimate_k 25 7 2 :=
  ⟨by norm_num, by norm_num, by norm_num,
    C4_estimate_k_mono_wq 25 7 1 2 (by norm_num) (by norm_num) (by norm_num)⟩

/-- C5: with `k = 0` the simulator returns exactly `R * t` in the injection
phase (`t ≤ t_fill`) and exactly the constant `C_peak`, which equals
`R * t_fill`, in the decay phase (`t > t_fill`). -/
theorem C5_k_zero_branches (ozone_gph volume_l fill_hr t : ℝ)
    (ho : 0 ≤ ozone_gph) (hv : 0 < volume_l) (hf : 0 ≤ fill_hr) (ht : 0 ≤ t) :
    (t ≤ t_fill_end fill_hr →
      simulateSample ozone_gph volume_l 0 fill_hr t = injectionR ozone_gph volume_l * t)
    ∧ (t_fill_end fill_hr < t →
      simulateSample ozone_gph volume_l 0 fill_hr t = c_peak ozone_gph volume_l 0 fill_hr)
    ∧ c_peak ozone_gph volume_l 0 fill_hr =
        injectionR ozone_gph volume_l * t_fill_end fill_hr := by
  have hR := injectionR_nonneg ho hv
  have hknot : ¬ ((0 : ℝ) > 0) := lt_irrefl 0
  refine ⟨?_, ?_, ?_⟩
  · intro hle
    unfold simulateSample
    rw [if_pos hle, if_neg hknot]
    exact max_eq_right (mul_nonneg hR ht)
  · intro hgt
    unfold simulateSample
    rw [if_neg (not_le.mpr hgt), if_neg hknot]
    have htf : 0 ≤ t_fill_end fill_hr := t_fill_end_nonneg hf
    exact max_eq_right (by unfold c_peak; rw [if_neg hknot]; exact mul_nonneg hR htf)
  · unfold c_peak
    rw [if_neg hknot]

/-- C5 witness: the `k = 0` branches instantiated at ozone rate 5 g/h,
volume 200 L, fill duration 1 hr, and sample time 30 min. -/
theorem C5_k_zero_branches_witness :
    (0 : ℝ) ≤ 5 ∧ (0 : ℝ) < 200 ∧ (0 : ℝ) ≤ 1 ∧ (0 : ℝ) ≤ 30 ∧
      (((30 : ℝ) ≤ t_fill_end 1 →
        simulateSample 5 200 0 1 30 = injectionR 5 200 * 30)
      ∧ (t_fill_end 1 < 30 →
        simulateSample 5 200 0 1 30 = c_peak 5 200 0 1)
      ∧ c_peak 5 200 0 1 = injectionR 5 200 * t_fill_end 1) :=
  ⟨by norm_num, by norm_num, by norm_num, by norm_num,
    C5_k_zero_branches 5 200 1 30 (by norm_num) (by norm_num) (by norm_num) (by norm_num)⟩

/-- C1: for positive injection parameters, positive `k` and non-negative
fill duration, the simulator at `t = t_fill` takes the injection branch and
returns `(R/k) * (1 - exp (-k * t_fill))`, which is exactly `C_peak`, and
`C_peak` equals the decay-branch value at zero elapsed decay time — the
piecewise solution is continuous at the phase boundary. -/
theorem C1_boundary_continuity (ozone_gph volume_l k fill_hr : ℝ)
    (ho : 0 < ozone_gph) (hv : 0 < volume_l) (hk : 0 < k) (hf : 0 ≤ fill_hr) :
    simulateSample ozone_gph volume_l k fill_hr (t_fill_end fill_hr)
      = injectionR ozone_gph volume_l / k * (1 - Real.exp (-k * t_fill_end fill_hr))
    ∧ simulateSample ozone_gph volume_l k fill_hr (t_fill_end fill_hr)
      = c_peak ozone_gph volume_l k fill_hr
    ∧ c_peak ozone_gph volume_l k fill_hr
      = c_peak ozone_gph volume_l k fill_hr
          * Real.exp (-k * (t_fill_end fill_hr - t_fill_end fill_hr)) := by
  have htf := t_fill_end_nonneg hf
  have hval : simulateSample ozone_gph volume_l k fill_hr (t_fill_end fill_hr)
      = injectionR ozone_gph volume_l / k * (1 - Real.exp (-k * t_fill_end fill_hr)) := by
    unfold simulateSample
    rw [if_pos le_rfl, if_pos hk]
    refine max_eq_right ?_
    have h1 : 0 ≤ 1 - Real.exp (-k * t_fill_end fill_hr) := by
      have h : -k * t_fill_end fill_hr = -(k * t_fill_end fill_hr) := by ring
      rw [h]
      exact one_sub_exp_neg_nonneg (mul_nonneg (le_of_lt hk) htf)
    exact mul_nonneg (div_nonneg (le_of_lt (injectionR_pos ho hv)) (le_of_lt hk)) h1
  refine ⟨hval, ?_, ?_⟩
  · rw [hval]; unfold c_peak; rw [if_pos hk]
  · rw [sub_self, mul_zero, Real.exp_zero, mul_one]

/-- C1 witness: boundary continuity instantiated at ozone rate 5 g/h,
volume 200 L, `k = 1/100`, fill duration 1 hr. -/
theorem C1_boundary_continuity_witness :
    (0 : ℝ) < 5 ∧ (0 : ℝ) < 200 ∧ (0 : ℝ) < 1/100 ∧ (0 : ℝ) ≤ 1 ∧
      (simulateSample 5 200 (1/100) 1 (t_fill_end 1)
        = injectionR 5 200 / (1/100) * (1 - Real.exp (-(1/100) * t_fill_end 1))
      ∧ simulateSample 5 200 (1/100) 1 (t_fill_end 1) = c_peak 5 200 (1/100) 1
      ∧ c_peak 5 200 (1/100) 1
        = c_peak 5 200 (1/100) 1 * Real.exp (-(1/100) * (t_fill_end 1 - t_fill_end 1))) :=
  ⟨by norm_num, by norm_num, by norm_num, by norm_num,
    C1_boundary_continuity 5 200 (1/100) 1 (by norm_num) (by norm_num) (by norm_num)
      (by norm_num)⟩

/-- C6: the runner's time axis `np.linspace(0, sim_duration_hr * 60, 500)`
has exactly 500 samples, starts at 0, ends at `sim_duration_hr * 60`, and
consecutive samples all differ by the constant step
`sim_duration_hr * 60 / 499`. -/
theorem C6_time_axis (sim_hr : ℝ) (i : ℕ) (hi : i + 1 ≤ 499) :
    (linspace 0 (sim_hr * 60) 500).length = 500
    ∧ (linspace 0 (sim_hr * 60) 500)[0]? = some 0
    ∧ (linspace 0 (sim_hr * 60) 500)[499]? = some (sim_hr * 60)
    ∧ ∃ x y, (linspace 0 (sim_hr * 60) 500)[i]? = some x
        ∧ (linspace 0 (sim_hr * 60) 500)[i + 1]? = some y
        ∧ y - x = sim_hr * 60 / 499 := by
  refine ⟨?_, ?_, ?_, ?_⟩
  · simp [linspace]
  · rw [linspace_get 0 (sim_hr * 60) 500 0 (by norm_num)]
    norm_num
  · rw [linspace_get 0 (sim_hr * 60) 500 499 (by norm_num)]
    congr 1
    field_simp
    left
    norm_num
  · refine ⟨0 + (sim_hr * 60 - 0) * i / ((500 : ℝ) - 1),
      0 + (sim_hr * 60 - 0) * (i + 1) / ((500 : ℝ) - 1), ?_, ?_, ?_⟩
    · exact linspace_get 0 (sim_hr * 60) 500 i (by omega)
    · rw [linspace_get 0 (sim_hr * 60) 500 (i + 1) (by omega)]
      norm_num
    · ring

/-- C6 witness: the axis properties instantiated at `sim_hr = 6` and
adjacent samples 0 and 1. -/
theorem C6_time_axis_witness :
    0 + 1 ≤ 499 ∧
      ((linspace 0 ((6 : ℝ) * 60) 500).length = 500
      ∧ (linspace 0 ((6 : ℝ) * 60) 500)[0]? = some 0
      ∧ (linspace 0 ((6 : ℝ) * 60) 500)[499]? = some ((6 : ℝ) * 60)
      ∧ ∃ x y, (linspace 0 ((6 : ℝ) * 60) 500)[0]? = some x
          ∧ (linspace 0 ((6 : ℝ) * 60) 500)[0 + 1]? = some y
          ∧ y - x = (6 : ℝ) * 60 / 499) :=
  ⟨by norm_num, C6_time_axis 6 0 (by norm_num)⟩

/-- C7: removing a scenario when more than one is present removes exactly
the entry at the given index and shows no notice; removing when only one
scenario remains (or fewer) leaves the list unchanged and shows the
rejection notice. -/
theorem C7_remove_last_rejected {α : Type} (l : List α) (i : ℕ) (hi : i < l.length) :
    remove_scn l i =
      if 1 < l.length then (l.take i ++ l.drop (i + 1), false) else (l, true) := by
  unfold remove_scn
  split
  · rw [List.eraseIdx_eq_take_drop_succ]
  · rfl

/-- C7 witness: removal behavior instantiated on the two-element list
`[10, 20]` at index 0 and on the singleton `[10]` at index 0. -/
theorem C7_remove_last_rejected_witness :
    0 < [10, 20].length ∧ 0 < [10].length ∧
      remove_scn [10, 20] 0 =
        (if 1 < [10, 20].length then ([10, 20].take 0 ++ [10, 20].drop (0 + 1), false)
         else ([10, 20], true)) ∧
      remove_scn [10] 0 =
        (if 1 < [10].length then ([10].take 0 ++ [10].drop (0 + 1), false)
         else ([10], true)) :=
  ⟨by decide, by decide, C7_remove_last_rejected [10, 20] 0 (by decide),
    C7_remove_last_rejected [10] 0 (by decide)⟩

/-- C9: `estimate_k` is strictly positive for all real inputs, so in the
pipeline — where `k` always comes from `estimate_k` — the half-life column
never holds the `"inf"` sentinel and the `k = 0` fallback branches of the
simulator are unreachable: the sample rule agrees everywhere with the
`k > 0` closed form. -/
theorem C9_estimate_k_pos_no_inf (temp_c ph wq_factor : ℝ) :
    0 < estimate_k temp_c ph wq_factor
    ∧ half_life_cell (estimate_k temp_c ph wq_factor)
        = HalfLifeCell.num (round2 (Real.log 2 / estimate_k temp_c ph wq_factor))
    ∧ ∀ ozone_gph volume_l fill_hr t_min : ℝ,
        simulateSample ozone_gph volume_l (estimate_k temp_c ph wq_factor) fill_hr t_min
          = simulateSamplePos ozone_gph volume_l (estimate_k temp_c ph wq_factor) fill_hr
              t_min := by
  have hk := estimate_k_pos temp_c ph wq_factor
  refine ⟨hk, ?_, ?_⟩
  · unfold half_life_cell
    rw [if_pos hk]
  · intro ozone_gph volume_l fill_hr t_min
    unfold simulateSample simulateSamplePos c_peak
    simp only [gt_iff_lt, hk, if_true]

/-- C10: for a positive injection rate, non-negative `k` and non-negative
fill time, the sample rule is non-decreasing in `t` on the injection phase
`[0, t_fill]` and non-increasing on the decay phase `(t_fill, ∞)`; every
sample value lies in `[0, C_peak]`, and the maximum `C_peak` is attained at
`t = t_fill`. -/
theorem C10_unimodal_shape (ozone_gph volume_l k fill_hr : ℝ)
    (ho : 0 < ozone_gph) (hv : 0 < volume_l) (hk : 0 ≤ k) (hf : 0 ≤ fill_hr) :
    (∀ t1 t2 : ℝ, 0 ≤ t1 → t1 ≤ t2 → t2 ≤ t_fill_end fill_hr →
        simulateSample ozone_gph volume_l k fill_hr t1
          ≤ simulateSample ozone_gph volume_l k fill_hr t2)
    ∧ (∀ t1 t2 : ℝ, t_fill_end fill_hr < t1 → t1 ≤ t2 →
        simulateSample ozone_gph volume_l k fill_hr t2
          ≤ simulateSample ozone_gph volume_l k fill_hr t1)
    ∧ (∀ t : ℝ, 0 ≤ t →
        0 ≤ simulateSample ozone_gph volume_l k fill_hr t
        ∧ simulateSample ozone_gph volume_l k fill_hr t
            ≤ c_peak ozone_gph volume_l k fill_hr)
    ∧ simulateSample ozone_gph volume_l k fill_hr (t_fill_end fill_hr)
        = c_peak ozone_gph volume_l k fill_hr := by
  have hR := injectionR_pos ho hv
  have hRle := le_of_lt hR
  have htf := t_fill_end_nonneg hf
  have hpeak := c_peak_nonneg (le_of_lt ho) hv hk hf
  have hn : ¬ ((0 : ℝ) > 0) := lt_irrefl 0
  refine ⟨?_, ?_, ?_, ?_⟩
  · intro t1 t2 ht1 h12 h2f
    have h1f : t1 ≤ t_fill_end fill_hr := le_trans h12 h2f
    unfold simulateSample
    rw [if_pos h1f, if_pos h2f]
    rcases eq_or_lt_of_le hk with hk0 | hkpos
    · rw [← hk0, if_neg hn, if_neg hn]
      exact max_le_max le_rfl (mul_le_mul_of_nonneg_left h12 hRle)
    · rw [if_pos hkpos, if_pos hkpos]
      refine max_le_max le_rfl ?_
      have he : Real.exp (-k * t2) ≤ Real.exp (-k * t1) :=
        Real.exp_le_exp.mpr (by nlinarith [mul_le_mul_of_nonneg_left h12 hk])
      have hRk : 0 ≤ injectionR ozone_gph volume_l / k := div_nonneg hRle hk
      nlinarith [mul_nonneg hRk (sub_nonneg.mpr he)]
  · intro t1 t2 h1f h12
    have h2f : t_fill_end fill_hr < t2 := lt_of_lt_of_le h1f h12
    unfold simulateSample
    rw [if_neg (not_le.mpr h1f), if_neg (not_le.mpr h2f)]
    rcases eq_or_lt_of_le hk with hk0 | hkpos
    · rw [← hk0, if_neg hn, if_neg hn]
    · rw [if_pos hkpos, if_pos hkpos]
      refine max_le_max le_rfl ?_
      refine mul_le_mul_of_nonneg_left ?_ hpeak
      exact Real.exp_le_exp.mpr (by nlinarith [mul_le_mul_of_nonneg_left h12 hk])
  · intro t ht
    refine ⟨le_max_left _ _, ?_⟩
    unfold simulateSample
    rcases le_or_lt t (t_fill_end fill_hr) with htle | htgt
    · rw [if_pos htle]
      rcases eq_or_lt_of_le hk with hk0 | hkpos
      · rw [← hk0] at hpeak ⊢
        rw [if_neg hn]
        refine max_le hpeak ?_
        have hc : c_peak ozone_gph volume_l 0 fill_hr
            = injectionR ozone_gph volume_l * t_fill_end fill_hr := by
          unfold c_peak; rw [if_neg hn]
        rw [hc]
        exact mul_le_mul_of_nonneg_left htle hRle
      · rw [if_pos hkpos]
        refine max_le hpeak ?_
        have hc : c_peak ozone_gph volume_l k fill_hr
            = injectionR ozone_gph volume_l / k
                * (1 - Real.exp (-k * t_fill_end fill_hr)) := by
          unfold c_peak; rw [if_pos hkpos]
        rw [hc]
        have he : Real.exp (-k * t_fill_end fill_hr) ≤ Real.exp (-k * t) :=
          Real.exp_le_exp.mpr (by nlinarith [mul_le_mul_of_nonneg_left htle hk])
        have hRk : 0 ≤ injectionR ozone_gph volume_l / k := div_nonneg hRle hk
        nlinarith [mul_nonneg hRk (sub_nonneg.mpr he)]
    · rw [if_neg (not_le.mpr htgt)]
      rcases eq_or_lt_of_le hk with hk0 | hkpos
      · rw [← hk0] at hpeak ⊢
        rw [if_neg hn]
        exact max_le hpeak le_rfl
      · rw [if_pos hkpos]
        refine max_le hpeak ?_
        have he : Real.exp (-k * (t - t_fill_end fill_hr)) ≤ 1 :=
          Real.exp_le_one_iff.mpr
            (by nlinarith [mul_nonneg hk (le_of_lt (sub_pos.mpr htgt))])
        have := mul_le_mul_of_nonneg_left he hpeak
        simpa using this
  · unfold simulateSample
    rw [if_pos le_rfl]
    rcases eq_or_lt_of_le hk with hk0 | hkpos
    · rw [← hk0]
      rw [if_neg hn]
      have hc : c_peak ozone_gph volume_l 0 fill_hr
          = injectionR ozone_gph volume_l * t_fill_end fill_hr := by
        unfold c_peak; rw [if_neg hn]
      rw [hc]
      exact max_eq_right (mul_nonneg hRle htf)
    · rw [if_pos hkpos]
      have hc : c_peak ozone_gph volume_l k fill_hr
          = injectionR ozone_gph volume_l / k
              * (1 - Real.exp (-k * t_fill_end fill_hr)) := by
        unfold c_peak; rw [if_pos hkpos]
      rw [hc]
      refine max_eq_right ?_
      have h1 : 0 ≤ 1 - Real.exp (-k * t_fill_end fill_hr) := by
        have h : -k * t_fill_end fill_hr = -(k * t_fill_end fill_hr) := by ring
        rw [h]
        exact one_sub_exp_neg_nonneg (mul_nonneg (le_of_lt hkpos) htf)
      exact mul_nonneg (div_nonneg hRle (le_of_lt hkpos)) h1

/-- C10 witness: the shape properties instantiated at ozone rate 5 g/h,
volume 200 L, `k = 0`, fill duration 1 hr. -/
theorem C10_unimodal_shape_witness :
    (0 : ℝ) < 5 ∧ (0 : ℝ) < 200 ∧ (0 : ℝ) ≤ 0 ∧ (0 : ℝ) ≤ 1 ∧
      ((∀ t1 t2 : ℝ, 0 ≤ t1 → t1 ≤ t2 → t2 ≤ t_fill_end 1 →
          simulateSample 5 200 0 1 t1 ≤ simulateSample 5 200 0 1 t2)
      ∧ (∀ t1 t2 : ℝ, t_fill_end 1 < t1 → t1 ≤ t2 →
          simulateSample 5 200 0 1 t2 ≤ simulateSample 5 200 0 1 t1)
      ∧ (∀ t : ℝ, 0 ≤ t →
          0 ≤ simulateSample 5 200 0 1 t ∧ simulateSample 5 200 0 1 t ≤ c_peak 5 200 0 1)
      ∧ simulateSample 5 200 0 1 (t_fill_end 1) = c_peak 5 200 0 1) :=
  ⟨by norm_num, by norm_num, by norm_num, by norm_num,
    C10_unimodal_shape 5 200 0 1 (by norm_num) (by norm_num) (by norm_num) (by norm_num)⟩

/-- C8 counterexample: for the concrete pass with figure 0 and an empty
summary table, the chart image embedded in the PDF artifact is not
identical to the one embedded in the HTML artifact: the PDF encoder
re-renders the figure at `dpi=300` (app.py:85) while the HTML encoder
re-renders it at matplotlib's default dpi of 100 (app.py:115), so the two
PNGs have different pixel dimensions. -/
theorem C8_counterexample :
    ¬ (generate_pdf_report 0 ([] : List ℕ)).image
        = (generate_html_report 0 ([] : List ℕ)).image := by
  decide

/-- C8 amended: both encoders consume the same figure object and the same
summary rows for a given pass — the summary rows are embedded verbatim and
both images render the same figure — but each encoder re-renders the chart
itself (the PDF at dpi 300, the HTML at the default dpi 100), so the two
embedded chart images are not identical artifacts. -/
theorem C8_same_inputs_different_renders {Row : Type} (figId : ℕ) (table : List Row) :
    (generate_pdf_report figId table).image.figId
        = (generate_html_report figId table).image.figId
    ∧ (generate_pdf_report figId table).table = table
    ∧ (generate_html_report figId table).table = table
    ∧ (generate_pdf_report figId table).image = savefig figId 300
    ∧ (generate_html_report figId table).image = savefig figId 100
    ∧ (generate_pdf_report figId table).image ≠ (generate_html_report figId table).image := by
  refine ⟨rfl, rfl, rfl, rfl, rfl, ?_⟩
  intro h
  have hw : (10 * 300 : ℕ) = 10 * 100 := congrArg PngImage.widthPx h
  norm_num at hw

/-- C2 counterexample: the end-to-end example of the spec is false as
stated, because the concentration at the 60-minute fill end is not
approximately 16.9 mg/L: the code computes
`(R/k) * (1 - exp (-k * 60)) ∈ [20.36, 20.38]`, more than 3.4 away from
16.9. -/
theorem C2_example_counterexample : ¬ spec_example_claim := by
  intro h
  obtain ⟨-, -, -, -, -, h6, -⟩ := h
  rw [abs_le] at h6
  have := c60_bounds.1
  linarith

/-- C2 amended: for the example input (ozone rate 5 g/h, fill 1 hr, volume
200 L, 25 °C, pH 7, water-quality factor 1) the program computes
`temp_factor = 2^0.5 = √2 ≈ 1.414`, `ph_factor = 1`, `k ≈ 0.00707` per
minute, `R ≈ 0.4167` mg/L/min, a fill-end concentration of approximately
20.37 mg/L (not 16.9), and a half-life of approximately 98.1 min. -/
theorem C2_example_amended :
    temp_factor_ex = Real.sqrt 2 ∧ |temp_factor_ex - 1.414| ≤ 0.001
    ∧ ph_factor_ex = 1
    ∧ |estimate_k 25 7 1 - 0.00707| ≤ 0.00001
    ∧ |injectionR 5 200 - 0.4167| ≤ 0.0001
    ∧ |simulateSample 5 200 (estimate_k 25 7 1) 1 60 - 20.37| ≤ 0.5
    ∧ |Real.log 2 / estimate_k 25 7 1 - 98.1| ≤ 0.5 := by
  have hs1 := sqrt_two_gt
  have hs2 := sqrt_two_lt
  refine ⟨temp_factor_ex_eq, ?_, ph_factor_ex_eq, ?_, ?_, ?_, ?_⟩
  · rw [temp_factor_ex_eq, abs_le]
    constructor <;> linarith
  · rw [estimate_k_example, abs_le]
    constructor <;> nlinarith
  · rw [injectionR_example, abs_le]
    constructor <;> norm_num
  · rw [abs_le]
    have h1 := c60_bounds.1
    have h2 := c60_bounds.2
    constructor <;> linarith
  · rw [abs_le]
    have h1 := half_life_example_bounds.1
    have h2 := half_life_example_bounds.2
    constructor <;> linarith

end Ozone
